import Mathlib

/-!
Shallow embedding of `helm-patchdiff` (`main.go`): a read-only preview tool that
computes, per target resource of a rendered chart, the patch an upgrade would
apply.  Pure functions model the program's control flow; collaborator results
(release storage, chart rendering, manifest building, live-object retrieval)
are supplied through explicit environment records, and every interaction with
the Kubernetes runtime is recorded in an operation trace.
-/

/-- JSON-like document values, the shape of serialized Kubernetes object
bodies (`json.Marshal` output).  Numbers are modelled as integers, which is
enough for the structural-diff properties studied here. -/
inductive Json where
  | null
  | bool (b : Bool)
  | num (n : Int)
  | str (s : String)
  | arr (elems : List Json)
  | obj (fields : List (String × Json))
deriving Repr

mutual

/-- Structural equality of JSON documents (the serialized-bytes comparison the
Go libraries perform on canonically marshalled documents). -/
def Json.beq : Json → Json → Bool
  | Json.null, Json.null => true
  | Json.bool a, Json.bool b => a == b
  | Json.num a, Json.num b => a == b
  | Json.str a, Json.str b => a == b
  | Json.arr xs, Json.arr ys => Json.beqList xs ys
  | Json.obj fs, Json.obj gs => Json.beqFields fs gs
  | _, _ => false
termination_by a _b => sizeOf a

/-- Element-wise equality of JSON arrays. -/
def Json.beqList : List Json → List Json → Bool
  | [], [] => true
  | x :: xs, y :: ys => Json.beq x y && Json.beqList xs ys
  | _, _ => false
termination_by xs _ys => sizeOf xs

/-- Binding-wise equality of JSON object field lists. -/
def Json.beqFields : List (String × Json) → List (String × Json) → Bool
  | [], [] => true
  | (k, v) :: fs, (l, w) :: gs => k == l && Json.beq v w && Json.beqFields fs gs
  | _, _ => false
termination_by fs _gs => sizeOf fs

end

/-- First binding of a key in a JSON object's field list. -/
def lookupJ : List (String × Json) → String → Option Json
  | [], _ => none
  | p :: rest, key => if p.1 = key then some p.2 else lookupJ rest key

/-- Keys present in `fo` but absent from `fn`, marked for removal with a JSON
null (merge-patch removal marker). -/
def removedNulls (fo fn : List (String × Json)) : List (String × Json)  :=
  fo.filterMap (fun p => if (lookupJ fn p.1).isNone then some (p.1, Json.null) else none)

mutual

/-- Modelled from the spec: the external generic two-document JSON merge
patch (`jsonpatch.CreateMergePatch`), whose source is not part of this
repository.  Per §4.4 step 6: structurally diff the two documents; keys
present in new but differing from old are included; keys removed between old
and new are marked for removal (null); arrays are replaced wholesale, not
merged element-wise; non-object documents are replaced outright. -/
def mergeDiff : Json → Json → Json
  | Json.obj fo, Json.obj fn => Json.obj (removedNulls fo fn ++ diffFields fo fn)
  | _, n => n
termination_by _o n => sizeOf n

/-- Field-wise part of [mergeDiff]: walk the new object's fields, keeping
those that are absent from or differ from the old object, recursing into
nested objects. -/
def diffFields (fo : List (String × Json)) : List (String × Json) → List (String × Json)
  | [] => []
  | (k, v) :: rest =>
    (match lookupJ fo k with
     | none => [(k, v)]
     | some ov =>
       if Json.beq ov v then []
       else
         match ov, v with
         | Json.obj a, Json.obj b => [(k, mergeDiff (Json.obj a) (Json.obj b))]
         | _, _ => [(k, v)]) ++ diffFields fo rest
termination_by l => sizeOf l

end

/-- The generic two-document JSON merge patch of `main.go` line 318
(`jsonpatch.CreateMergePatch(oldData, newData)`). -/
def createMergePatch (oldData newData : Json) : Json :=
  mergeDiff oldData newData

/-- Strategic-merge-patch metadata derived from a resource's compiled schema
(`strategicpatch.NewPatchMetaFromStruct` result), identified here by the name
of the versioned struct it was derived from. -/
structure PatchMeta where
  structName : String
deriving DecidableEq, Repr

/-- Modelled from the spec: the external schema-aware three-way merge
(`strategicpatch.CreateThreeWayMergePatch`), whose source is not part of this
repository.  Per §4.4 step 7, the patch is the one that, applied to
`currentData`, applies the old→new delta while preserving live fields the
delta does not touch: for every field, a change declared between old and new
wins; otherwise the live value is preserved (so it does not appear in the
patch); fields deleted between old and new are nulled, with overwrite
semantics enabled so the deletions take effect even against live drift.  At
the granularity the spec fixes, the emitted patch document is therefore the
structural old→new delta; neither `currentData` nor the per-field merge
metadata changes which fields appear.  The program always calls this with
`overwrite = true`; conflict reporting for `overwrite = false` is not
modelled. -/
def createThreeWayMergePatch (oldData newData _currentData : Json) (_meta : PatchMeta)
    (_overwrite : Bool) : Json :=
  mergeDiff oldData newData

/-- Identity of a Kubernetes resource: two resources are the same resource
iff all five fields match (spec §3).  `resource.Info` carries these through
its mapping (group/version/kind) and its namespace/name. -/
structure ResourceIdentity where
  group : String
  version : String
  kind : String
  nspace : String
  name : String
deriving DecidableEq, Repr

/-- A decoded manifest resource (`*resource.Info`): its identity, its object
body (`info.Object`), and the outcome of the runtime-type inspection that
`createPatch` performs on `kube.AsVersioned(target)` — whether the versioned
object is a `runtime.Unstructured`, whether it is an
`*apiextv1.CustomResourceDefinition`, and the result of
`strategicpatch.NewPatchMetaFromStruct` on it (`none` models failure). -/
structure Resource where
  identity : ResourceIdentity
  body : Json
  isUnstructured : Bool
  isCRD : Bool
  patchMeta : Option PatchMeta

/-- Result of a live lookup (`helper.Get`): the object, a not-found error, or
any other retrieval failure. -/
inductive FetchResult where
  | found (obj : Json)
  | notFound
  | failed (msg : String)

/-- Truth of `apierrors.IsNotFound(err)` on the (discarded) result of a `helper.Get`. -/
def FetchResult.isNotFound : FetchResult → Bool
  | FetchResult.notFound => true
  | _ => false

/-- The two patch kinds the program emits (`types.PatchType`). -/
inductive PatchType where
  | strategicMergePatch
  | mergePatch
deriving DecidableEq, Repr

/-- One interaction with the Kubernetes runtime.  The underlying client
interface also supports writes (create/update/delete/patch); the trace records
which interactions the program actually issues. -/
inductive KubeOp where
  | reachabilityCheck
  | discoverVersion
  | discoverAPIVersions
  | getLive (id : ResourceIdentity)
  | createResource (id : ResourceIdentity)
  | updateResource (id : ResourceIdentity)
  | deleteResource (id : ResourceIdentity)
  | patchResource (id : ResourceIdentity)
deriving DecidableEq, Repr

/-- A runtime interaction that only reads cluster state. -/
def KubeOp.isRead : KubeOp → Bool
  | KubeOp.reachabilityCheck => true
  | KubeOp.discoverVersion => true
  | KubeOp.discoverAPIVersions => true
  | KubeOp.getLive _ => true
  | _ => false

/-- Result of `action.GetVersionSet` on the discovery client: success, the
tolerated group-discovery failure (a warning is logged and the partially
populated version set is used), or a fatal failure. -/
inductive VersionSetResult where
  | ok (versions : List String)
  | groupDiscoveryFailed (versions : List String)
  | failed (msg : String)

/-- The observable Kubernetes runtime: reachability, discovery results, and
the live object stored under each identity.  The computation never writes to
it; it only appears as an input. -/
structure Cluster where
  reachable : Bool
  serverVersion : Except String String
  apiVersionsResult : VersionSetResult
  live : ResourceIdentity → FetchResult

/-- Pipeline errors (`error` values returned or logged by `main.go`). -/
inductive DriverError where
  | releaseNotFound
  | noDeployedReleases (name : String)
  | other (msg : String)
deriving DecidableEq, Repr

/-- Truth of `errors.Is(err, driver.ErrNoDeployedReleases)`. -/
def DriverError.isNoDeployedReleases : DriverError → Bool
  | DriverError.noDeployedReleases _ => true
  | _ => false

/-- The error taxonomy of the pipeline, one constructor per distinct failure
site in `main.go`. -/
inductive Err where
  | driver (e : DriverError)
  | missingChart
  | processDependencies (msg : String)
  | discovery (msg : String)
  | renderValues (msg : String)
  | render (msg : String)
  | buildOriginal (msg : String)
  | buildTarget (msg : String)
  | unreachable (msg : String)
  | originalNotFound (name : String)
  | patchMetaUnavailable
  | liveGet (msg : String)
  | invalidName (msg : String)
  | mergeValues (msg : String)
  | loadChart (msg : String)
deriving DecidableEq, Repr

/-- The live object body `createPatch` serializes for the three-way merge:
the fetched object, or — "Even if currentObj is nil (because it was not
found), it will marshal just fine" — JSON null when the lookup returned
not-found. -/
def liveData (cluster : Cluster) (id : ResourceIdentity) : Json :=
  match cluster.live id with
  | FetchResult.found obj => obj
  | _ => Json.null

/-- The classification-and-patch step of `createPatch` (`main.go` lines
304-328), after the three serializations and the live fetch: unstructured
objects and CRDs fall back to the generic JSON merge patch; everything else
derives schema metadata and computes the strategic three-way merge patch with
`overwrite = true`. -/
def createPatchBody (oldData newData currentData : Json) (target : Resource) :
    Except Err (Json × PatchType) :=
  if target.isUnstructured || target.isCRD then
    Except.ok (createMergePatch oldData newData, PatchType.mergePatch)
  else
    match target.patchMeta with
    | none => Except.error Err.patchMetaUnavailable
    | some meta =>
      Except.ok (createThreeWayMergePatch oldData newData currentData meta true,
                 PatchType.strategicMergePatch)

/-- Embeds `createPatch` (`main.go` lines 281-329).  `original` is the matched
original-manifest object (the parameter the source calls `current`), `target`
the target-manifest resource.  Serializations of the original and target
bodies are the identity in this model (marshalling a `Json` tree is exact).
The function fetches the live object itself — this is the second fetch of a
visited resource — and fails on any non-not-found retrieval error.  The trace
records the runtime interactions it issues. -/
def createPatch (cluster : Cluster) (original : Json) (target : Resource) :
    Except Err (Json × PatchType) × List KubeOp :=
  let oldData := original
  let newData := target.body
  match cluster.live target.identity with
  | FetchResult.failed msg =>
    (Except.error (Err.liveGet msg), [KubeOp.getLive target.identity])
  | FetchResult.notFound =>
    (createPatchBody oldData newData Json.null target, [KubeOp.getLive target.identity])
  | FetchResult.found obj =>
    (createPatchBody oldData newData obj target, [KubeOp.getLive target.identity])

/-- Modelled from the spec: the original/target pairing of `original.Get(info)`
(the helm `kube` package, outside this source tree) — each target identity is
paired with the first original resource carrying the same identity, `none`
when the original manifest has no match (§4.2). -/
def lookupOriginal : List Resource → Resource → Option Resource
  | [], _ => none
  | o :: rest, info =>
    if o.identity = info.identity then some o else lookupOriginal rest info

/-- The visitor `createPatchset` runs over the target resource list
(`main.go` lines 106-130), stopping at the first error: probe the live object
and skip the resource when the probe is not-found; otherwise require a
matching original resource (failing with `could not find %q` when there is
none), compute its patch, and append the patch document to the patchset in
visitation order.  Returns the ordered patch documents plus the trace of
runtime interactions. -/
def visitTargets (cluster : Cluster) (original : List Resource) :
    List Resource → Except Err (List Json) × List KubeOp
  | [] => (Except.ok [], [])
  | info :: rest =>
    if (cluster.live info.identity).isNotFound then
      let r := visitTargets cluster original rest
      (r.1, KubeOp.getLive info.identity :: r.2)
    else
      match lookupOriginal original info with
      | none =>
        (Except.error (Err.originalNotFound info.identity.name),
         [KubeOp.getLive info.identity])
      | some orig =>
        match createPatch cluster orig.body info with
        | (Except.error e, cops) =>
          (Except.error e, KubeOp.getLive info.identity :: cops)
        | (Except.ok (patch, _kind), cops) =>
          let r := visitTargets cluster original rest
          match r.1 with
          | Except.error e =>
            (Except.error e, (KubeOp.getLive info.identity :: cops) ++ r.2)
          | Except.ok patches =>
            (Except.ok (patch :: patches), (KubeOp.getLive info.identity :: cops) ++ r.2)

/-- A target resource that has a live counterpart (the live lookup finds an
object). -/
def hasLive (cluster : Cluster) (t : Resource) : Bool :=
  match cluster.live t.identity with
  | FetchResult.found _ => true
  | _ => false

/-- Number of target resources with a live counterpart. -/
def foundCount (cluster : Cluster) (ts : List Resource) : Nat :=
  (ts.filter (hasLive cluster)).length

/-- Release status values relevant to the baseline resolution
(`release.Status…`); every other helm status is `otherStatus`. -/
inductive Status where
  | deployed
  | failed
  | superseded
  | otherStatus (s : String)
deriving DecidableEq, Repr

/-- A release record (`*release.Release`): the fields `prepareUpgrade`
reads. -/
structure Release where
  name : String
  nspace : String
  version : Nat
  status : Status
  manifest : String
deriving DecidableEq, Repr

/-- The release-history storage collaborator, by its observable results:
`c.Releases.Last(name)` (most recent non-deleted record) and
`c.Releases.Deployed(name)` (most recently deployed record). -/
structure Storage where
  lastResult : Except DriverError Release
  deployedResult : Except DriverError Release

/-- Negotiated runtime capability metadata (`chartutil.Capabilities`). -/
structure Caps where
  kubeVersion : String
  apiVersions : List String
deriving DecidableEq, Repr

/-- A loaded chart.  Its contents beyond presence are consumed by external
collaborators (dependency processing, rendering) modelled in [Env]. -/
structure Chart where
  chartName : String
deriving DecidableEq, Repr

/-- Render context passed to template rendering
(`chartutil.ReleaseOptions`). -/
structure ReleaseOptions where
  name : String
  nspace : String
  revision : Nat
  isUpgrade : Bool
deriving DecidableEq, Repr

/-- The environment of one invocation: the cluster, the storage, and the
results of the non-runtime external collaborators (`valueOpts.MergeValues`,
`loader.Load`, `chartutil.ProcessDependencies`, rendering —
`chartutil.ToRenderValues` plus `renderResources` — and
`KubeClient.Build`). -/
structure Env where
  cluster : Cluster
  storage : Storage
  mergeValuesResult : Except String Unit
  loadChartResult : Except String Chart
  depsResult : Except String Unit
  render : ReleaseOptions → Except String String
  build : String → Except String (List Resource)

/-- Embeds `getCapabilities` (`main.go` lines 199-237): returns the cached
capabilities when present; otherwise invalidates the discovery cache, fetches
the server version, then the API version set — tolerating only the
group-discovery failure — and assembles the capability record.  The trace
records the discovery calls issued. -/
def getCapabilities (cluster : Cluster) (cached : Option Caps) :
    Except Err Caps × List KubeOp :=
  match cached with
  | some caps => (Except.ok caps, [])
  | none =>
    match cluster.serverVersion with
    | Except.error msg => (Except.error (Err.discovery msg), [KubeOp.discoverVersion])
    | Except.ok kubeVersion =>
      match cluster.apiVersionsResult with
      | VersionSetResult.failed msg =>
        (Except.error (Err.discovery msg),
         [KubeOp.discoverVersion, KubeOp.discoverAPIVersions])
      | VersionSetResult.ok versions =>
        (Except.ok { kubeVersion := kubeVersion, apiVersions := versions },
         [KubeOp.discoverVersion, KubeOp.discoverAPIVersions])
      | VersionSetResult.groupDiscoveryFailed versions =>
        (Except.ok { kubeVersion := kubeVersion, apiVersions := versions },
         [KubeOp.discoverVersion, KubeOp.discoverAPIVersions])

/-- The baseline-release resolution of `prepareUpgrade` (`main.go` lines
150-165): the most recent record itself when it is deployed; otherwise the
most recently deployed record; when that lookup fails with
`ErrNoDeployedReleases` and the most recent record is failed or superseded,
the most recent record substitutes; any other failure propagates. -/
def resolveBaseline (storage : Storage) (lastRelease : Release) :
    Except DriverError Release :=
  if lastRelease.status = Status.deployed then
    Except.ok lastRelease
  else
    match storage.deployedResult with
    | Except.ok deployedRelease => Except.ok deployedRelease
    | Except.error e =>
      if e.isNoDeployedReleases = true ∧
          (lastRelease.status = Status.failed ∨ lastRelease.status = Status.superseded) then
        Except.ok lastRelease
      else
        Except.error e

/-- Embeds `prepareUpgrade` (`main.go` lines 135-196): requires a chart, looks up
the most recent release (rewriting `ErrReleaseNotFound` into the
`no deployed releases` error), resolves the baseline release, processes chart
dependencies, computes the render context — namespace of the baseline,
revision = most recent release's version + 1, upgrade mode — negotiates
capabilities (no cache exists yet in the freshly initialised configuration),
and renders the target manifest.  Besides the two manifests the source
returns, this embedding also surfaces the baseline release and the render
context it computed and passed to rendering. -/
def prepareUpgrade (env : Env) (name : String) (chart : Option Chart) :
    Except Err (Release × ReleaseOptions × String × String) × List KubeOp :=
  match chart with
  | none => (Except.error Err.missingChart, [])
  | some _ch =>
    match env.storage.lastResult with
    | Except.error DriverError.releaseNotFound =>
      (Except.error (Err.driver (DriverError.noDeployedReleases name)), [])
    | Except.error e => (Except.error (Err.driver e), [])
    | Except.ok lastRelease =>
      match resolveBaseline env.storage lastRelease with
      | Except.error e => (Except.error (Err.driver e), [])
      | Except.ok currentRelease =>
        match env.depsResult with
        | Except.error msg => (Except.error (Err.processDependencies msg), [])
        | Except.ok _ =>
          let revision := lastRelease.version + 1
          let options : ReleaseOptions :=
            { name := name, nspace := currentRelease.nspace,
              revision := revision, isUpgrade := true }
          match getCapabilities env.cluster none with
          | (Except.error e, ops) => (Except.error e, ops)
          | (Except.ok _caps, ops) =>
            match env.render options with
            | Except.error msg => (Except.error (Err.render msg), ops)
            | Except.ok manifestDoc =>
              (Except.ok (currentRelease, options, currentRelease.manifest, manifestDoc),
               ops)

/-- Embeds `createPatchset` (`main.go` lines 80-133): checks reachability, prepares
the upgrade (original manifest, rendered target manifest), builds both object
lists, and visits every target resource accumulating patch documents in
visitation order.  The patchset is modelled as the ordered list of patch
documents the source joins with commas inside brackets. -/
def createPatchset (env : Env) (name : String) (chart : Option Chart) :
    Except Err (List Json) × List KubeOp :=
  if env.cluster.reachable then
    match prepareUpgrade env name chart with
    | (Except.error e, ops) => (Except.error e, KubeOp.reachabilityCheck :: ops)
    | (Except.ok (_baseline, _options, originalManifest, targetManifest), ops) =>
      match env.build originalManifest with
      | Except.error msg =>
        (Except.error (Err.buildOriginal msg), KubeOp.reachabilityCheck :: ops)
      | Except.ok original =>
        match env.build targetManifest with
        | Except.error msg =>
          (Except.error (Err.buildTarget msg), KubeOp.reachabilityCheck :: ops)
        | Except.ok target =>
          let r := visitTargets env.cluster original target
          (r.1, KubeOp.reachabilityCheck :: (ops ++ r.2))
  else
    (Except.error (Err.unreachable "cluster unreachable"), [KubeOp.reachabilityCheck])

/-- Embeds `validateReleaseName` (`main.go` lines 331-342): reject the empty name,
then names longer than 53 characters or failing the `action.ValidName`
pattern (the pattern itself is an external helm value, passed in here as
`validName`). -/
def validateReleaseName (validName : String → Bool) (releaseName : String) :
    Except String Unit :=
  if releaseName = "" then
    Except.error "no release name set"
  else if releaseName.length > 53 || !(validName releaseName) then
    Except.error ("invalid release name: " ++ releaseName)
  else
    Except.ok ()

/-- The command body (`main.go` lines 45-69): validate the release name
(fatally exiting on failure before anything else runs), merge the override
values, load the chart, compute the patchset, and print it. -/
def runMain (env : Env) (validName : String → Bool) (name : String) :
    Except Err (List Json) × List KubeOp :=
  match validateReleaseName validName name with
  | Except.error msg => (Except.error (Err.invalidName msg), [])
  | Except.ok _ =>
    match env.mergeValuesResult with
    | Except.error msg => (Except.error (Err.mergeValues msg), [])
    | Except.ok _ =>
      match env.loadChartResult with
      | Except.error msg => (Except.error (Err.loadChart msg), [])
      | Except.ok chart => createPatchset env name (some chart)

mutual

/-- Structural JSON equality is reflexive. -/
theorem Json.beq_refl : ∀ j : Json, Json.beq j j = true
  | Json.null => by simp [Json.beq]
  | Json.bool b => by simp [Json.beq]
  | Json.num n => by simp [Json.beq]
  | Json.str s => by simp [Json.beq]
  | Json.arr xs => by simp [Json.beq, Json.beqList_refl xs]
  | Json.obj fs => by simp [Json.beq, Json.beqFields_refl fs]
termination_by j => sizeOf j

/-- Element-wise JSON array equality is reflexive. -/
theorem Json.beqList_refl : ∀ xs : List Json, Json.beqList xs xs = true
  | [] => by simp [Json.beqList]
  | x :: xs => by simp [Json.beqList, Json.beq_refl x, Json.beqList_refl xs]
termination_by xs => sizeOf xs

/-- Binding-wise JSON field-list equality is reflexive. -/
theorem Json.beqFields_refl : ∀ fs : List (String × Json), Json.beqFields fs fs = true
  | [] => by simp [Json.beqFields]
  | (k, v) :: fs => by simp [Json.beqFields, Json.beq_refl v, Json.beqFields_refl fs]
termination_by fs => sizeOf fs

end

/-- A key that occurs in a field list is found by [lookupJ]. -/
theorem lookupJ_isSome_of_mem : ∀ (f : List (String × Json)) (k : String) (v : Json),
    (k, v) ∈ f → (lookupJ f k).isSome = true := by
  intro f k v h
  induction f with
  | nil => cases h
  | cons p rest ih =>
    rcases List.mem_cons.mp h with h1 | h2
    · simp [lookupJ, ← h1]
    · by_cases hp : p.1 = k
      · simp [lookupJ, hp]
      · simp [lookupJ, hp]
        exact ih h2

/-- With no duplicate keys, [lookupJ] returns the binding of a member. -/
theorem lookupJ_eq_of_mem_nodup : ∀ (f : List (String × Json)) (k : String) (v : Json),
    (f.map Prod.fst).Nodup → (k, v) ∈ f → lookupJ f k = some v := by
  intro f k v hnd h
  induction f with
  | nil => cases h
  | cons p rest ih =>
    simp only [List.map_cons, List.nodup_cons] at hnd
    rcases List.mem_cons.mp h with h1 | h2
    · simp [lookupJ, ← h1]
    · by_cases hp : p.1 = k
      · exact absurd (hp ▸ (List.mem_map.mpr ⟨(k, v), h2, rfl⟩)) hnd.1
      · simp [lookupJ, hp]
        exact ih hnd.2 h2

/-- Diffing a field list against a superset of its keys marks nothing for
removal. -/
theorem removedNulls_self (f : List (String × Json)) : removedNulls f f = [] := by
  unfold removedNulls
  rw [List.filterMap_eq_nil_iff]
  intro p hp
  have := lookupJ_isSome_of_mem f p.1 p.2 (by simpa using hp)
  simp [Option.isNone, this]
  cases h : lookupJ f p.1 with
  | none => rw [h] at this; cases this
  | some w => simp

/-- Field-wise diff of a field list against itself is empty when keys are
unique. -/
theorem diffFields_self (f : List (String × Json)) (hnd : (f.map Prod.fst).Nodup) :
    diffFields f f = [] := by
  have main : ∀ l : List (String × Json),
      (∀ k v, (k, v) ∈ l → lookupJ f k = some v) → diffFields f l = [] := by
    intro l
    induction l with
    | nil => intro _; simp [diffFields]
    | cons p rest ih =>
      intro h
      obtain ⟨k, v⟩ := p
      have hk : lookupJ f k = some v := h k v (List.mem_cons_self _ _)
      simp [diffFields, hk, Json.beq_refl v]
      exact ih (fun k' v' h' => h k' v' (List.mem_cons_of_mem _ h'))
  exact main f (fun k v hm => lookupJ_eq_of_mem_nodup f k v hnd hm)

/-- Structurally diffing a JSON object against itself yields the empty
object when its keys are unique. -/
theorem mergeDiff_self (f : List (String × Json)) (hnd : (f.map Prod.fst).Nodup) :
    mergeDiff (Json.obj f) (Json.obj f) = Json.obj [] := by
  simp [mergeDiff, removedNulls_self, diffFields_self f hnd]

/-- C3: for every resource classified as schemaless (unstructured versioned
object or CRD), the computed patch is a function of the serialized original
and target bodies only: varying the live object — found with any content, or
absent — while holding them fixed leaves the emitted patch (and patch kind)
identical, because the schemaless path never consults the live data. -/
theorem c3_schemaless_live_independent (c1 c2 : Cluster) (original : Json)
    (target : Resource)
    (hs : (target.isUnstructured || target.isCRD) = true)
    (h1 : ∀ msg, c1.live target.identity ≠ FetchResult.failed msg)
    (h2 : ∀ msg, c2.live target.identity ≠ FetchResult.failed msg) :
    (createPatch c1 original target).1 = (createPatch c2 original target).1 := by
  unfold createPatch
  cases hl1 : c1.live target.identity with
  | failed msg => exact absurd hl1 (h1 msg)
  | notFound =>
    cases hl2 : c2.live target.identity with
    | failed msg => exact absurd hl2 (h2 msg)
    | notFound => simp
    | found obj => simp [createPatchBody, hs]
  | found obj =>
    cases hl2 : c2.live target.identity with
    | failed msg => exact absurd hl2 (h2 msg)
    | notFound => simp [createPatchBody, hs]
    | found obj2 => simp [createPatchBody, hs]

/-- C3 witness: a concrete unstructured resource diffed under two clusters
whose live objects differ. -/
theorem c3_witness :
    (createPatch
      { reachable := true, serverVersion := Except.ok "v1.18.8",
        apiVersionsResult := VersionSetResult.ok ["v1"],
        live := fun _ => FetchResult.found (Json.obj [("drift", Json.num 1)]) }
      (Json.obj [("a", Json.num 1)])
      { identity := { group := "example.com", version := "v1", kind := "Widget",
                      nspace := "default", name := "w" },
        body := Json.obj [("a", Json.num 2)], isUnstructured := true, isCRD := false,
        patchMeta := none }).1
    = (createPatch
      { reachable := true, serverVersion := Except.ok "v1.18.8",
        apiVersionsResult := VersionSetResult.ok ["v1"],
        live := fun _ => FetchResult.notFound }
      (Json.obj [("a", Json.num 1)])
      { identity := { group := "example.com", version := "v1", kind := "Widget",
                      nspace := "default", name := "w" },
        body := Json.obj [("a", Json.num 2)], isUnstructured := true, isCRD := false,
        patchMeta := none }).1 :=
  c3_schemaless_live_independent _ _ _ _ rfl
    (fun _ h => FetchResult.noConfusion h)
    (fun _ h => FetchResult.noConfusion h)

/-- C4: for every schema-aware resource whose serialized original body equals
its serialized target body (a JSON object without duplicate keys, as
`json.Marshal` produces), the emitted three-way merge patch is the empty
patch document, whatever the live object holds — including when the live
lookup finds nothing. -/
theorem c4_schema_aware_no_drift (cluster : Cluster) (original : Json)
    (target : Resource) (meta : PatchMeta) (fields : List (String × Json))
    (hu : target.isUnstructured = false) (hc : target.isCRD = false)
    (hm : target.patchMeta = some meta)
    (hold : original = Json.obj fields) (hnew : target.body = Json.obj fields)
    (hnd : (fields.map Prod.fst).Nodup)
    (hfetch : ∀ msg, cluster.live target.identity ≠ FetchResult.failed msg) :
    (createPatch cluster original target).1
      = Except.ok (Json.obj [], PatchType.strategicMergePatch) := by
  unfold createPatch
  cases hl : cluster.live target.identity with
  | failed msg => exact absurd hl (hfetch msg)
  | notFound =>
    simp [createPatchBody, hu, hc, hm, createThreeWayMergePatch, hold, hnew,
          mergeDiff_self fields hnd]
  | found obj =>
    simp [createPatchBody, hu, hc, hm, createThreeWayMergePatch, hold, hnew,
          mergeDiff_self fields hnd]

/-- C4 witness: a concrete schema-aware resource with identical original and
target bodies, against a live object that drifted on the same field. -/
theorem c4_witness :
    (createPatch
      { reachable := true, serverVersion := Except.ok "v1.18.8",
        apiVersionsResult := VersionSetResult.ok ["v1"],
        live := fun _ => FetchResult.found (Json.obj [("replicas", Json.num 5)]) }
      (Json.obj [("replicas", Json.num 1)])
      { identity := { group := "apps", version := "v1", kind := "Deployment",
                      nspace := "default", name := "web" },
        body := Json.obj [("replicas", Json.num 1)], isUnstructured := false,
        isCRD := false, patchMeta := some { structName := "Deployment" } }).1
      = Except.ok (Json.obj [], PatchType.strategicMergePatch) :=
  c4_schema_aware_no_drift _ _ _ { structName := "Deployment" }
    [("replicas", Json.num 1)] rfl rfl rfl rfl rfl (by simp)
    (fun _ h => FetchResult.noConfusion h)

/-- C5: the emitted patch kind is the generic JSON merge patch exactly when
the versioned object is unstructured or a custom-resource-definition, in
which case the patch is the two-document merge patch of old vs new; every
other resource gets the schema-aware strategic three-way merge patch —
computed with `overwrite = true`, so deletions between old and new take
effect — tagged as a strategic merge patch. -/
theorem c5_patch_kind_classification (cluster : Cluster) (original : Json)
    (target : Resource) (patch : Json) (kind : PatchType)
    (hok : (createPatch cluster original target).1 = Except.ok (patch, kind)) :
    (kind = PatchType.mergePatch ↔ (target.isUnstructured || target.isCRD) = true)
    ∧ ((target.isUnstructured || target.isCRD) = true →
        patch = createMergePatch original target.body)
    ∧ (∀ meta, (target.isUnstructured || target.isCRD) = false →
        target.patchMeta = some meta →
        patch = createThreeWayMergePatch original target.body
                  (liveData cluster target.identity) meta true
        ∧ kind = PatchType.strategicMergePatch) := by
  unfold createPatch at hok
  cases hl : cluster.live target.identity with
  | failed msg => rw [hl] at hok; cases hok
  | notFound =>
    rw [hl] at hok
    simp only [createPatchBody] at hok
    by_cases hs : (target.isUnstructured || target.isCRD) = true
    · rw [if_pos hs] at hok
      obtain ⟨hp, hk⟩ := Prod.mk.injEq .. ▸ (Except.ok.injEq .. ▸ hok)
      refine ⟨by simp [← hk, hs], fun _ => hp.symm, ?_⟩
      intro meta hcls _
      rw [hs] at hcls; cases hcls
    · rw [if_neg hs] at hok
      cases hmeta : target.patchMeta with
      | none => rw [hmeta] at hok; cases hok
      | some meta =>
        rw [hmeta] at hok
        obtain ⟨hp, hk⟩ := Prod.mk.injEq .. ▸ (Except.ok.injEq .. ▸ hok)
        refine ⟨?_, fun hs' => absurd hs' hs, ?_⟩
        · constructor
          · intro hkind; rw [← hk] at hkind; cases hkind
          · intro hs'; exact absurd hs' hs
        · intro meta' _ hmeta'
          injection hmeta' with heq
          subst heq
          refine ⟨?_, hk.symm⟩
          rw [← hp]
          simp [createThreeWayMergePatch, liveData, hl]
  | found obj =>
    rw [hl] at hok
    simp only [createPatchBody] at hok
    by_cases hs : (target.isUnstructured || target.isCRD) = true
    · rw [if_pos hs] at hok
      obtain ⟨hp, hk⟩ := Prod.mk.injEq .. ▸ (Except.ok.injEq .. ▸ hok)
      refine ⟨by simp [← hk, hs], fun _ => hp.symm, ?_⟩
      intro meta hcls _
      rw [hs] at hcls; cases hcls
    · rw [if_neg hs] at hok
      cases hmeta : target.patchMeta with
      | none => rw [hmeta] at hok; cases hok
      | some meta =>
        rw [hmeta] at hok
        obtain ⟨hp, hk⟩ := Prod.mk.injEq .. ▸ (Except.ok.injEq .. ▸ hok)
        refine ⟨?_, fun hs' => absurd hs' hs, ?_⟩
        · constructor
          · intro hkind; rw [← hk] at hkind; cases hkind
          · intro hs'; exact absurd hs' hs
        · intro meta' _ hmeta'
          injection hmeta' with heq
          subst heq
          refine ⟨?_, hk.symm⟩
          rw [← hp]
          simp [createThreeWayMergePatch, liveData, hl]

/-- C5 witness: a concrete unstructured resource, classified to the generic
merge patch of its old and new bodies. -/
theorem c5_witness :
    (PatchType.mergePatch = PatchType.mergePatch ↔ (true || false) = true)
    ∧ ((true || false) = true →
        createMergePatch (Json.obj [("a", Json.num 1)]) (Json.obj [("a", Json.num 2)])
          = createMergePatch (Json.obj [("a", Json.num 1)]) (Json.obj [("a", Json.num 2)]))
    ∧ (∀ meta, (true || false) = false →
        (some { structName := "W" } : Option PatchMeta) = some meta →
        createMergePatch (Json.obj [("a", Json.num 1)]) (Json.obj [("a", Json.num 2)])
          = createThreeWayMergePatch (Json.obj [("a", Json.num 1)])
              (Json.obj [("a", Json.num 2)])
              (liveData
                { reachable := true, serverVersion := Except.ok "v1.18.8",
                  apiVersionsResult := VersionSetResult.ok ["v1"],
                  live := fun _ => FetchResult.found (Json.obj []) }
                { group := "example.com", version := "v1", kind := "Widget",
                  nspace := "default", name := "w" })
              meta true
        ∧ PatchType.mergePatch = PatchType.strategicMergePatch) :=
  c5_patch_kind_classification
    { reachable := true, serverVersion := Except.ok "v1.18.8",
      apiVersionsResult := VersionSetResult.ok ["v1"],
      live := fun _ => FetchResult.found (Json.obj []) }
    (Json.obj [("a", Json.num 1)])
    { identity := { group := "example.com", version := "v1", kind := "Widget",
                    nspace := "default", name := "w" },
      body := Json.obj [("a", Json.num 2)], isUnstructured := true, isCRD := false,
      patchMeta := some { structName := "W" } }
    (createMergePatch (Json.obj [("a", Json.num 1)]) (Json.obj [("a", Json.num 2)]))
    PatchType.mergePatch rfl

/-- C1 counterexample: a target resource that exists live (the live lookup
finds an object) but has no matching resource in the original manifest (the
original object list is empty) makes the whole visit fail with
`could not find %q` — the patch computation does not proceed against a
zero-value original. -/
theorem c1_counterexample :
    (visitTargets
      { reachable := true, serverVersion := Except.ok "v1.18.8",
        apiVersionsResult := VersionSetResult.ok ["v1"],
        live := fun _ => FetchResult.found (Json.obj []) }
      []
      [{ identity := { group := "apps", version := "v1", kind := "Deployment",
                       nspace := "default", name := "web" },
         body := Json.obj [], isUnstructured := false, isCRD := false,
         patchMeta := some { structName := "Deployment" } }]).1
      = Except.error (Err.originalNotFound "web") := rfl

/-- C1 (amended): for every target resource whose live probe is not
not-found but which has no matching resource (same group, version, kind,
namespace and name) in the original manifest, the whole patch computation
fails with an error naming the resource; no patch against a zero-value
original is computed. -/
theorem c1_unmatched_resource_fails (cluster : Cluster) (original : List Resource)
    (info : Resource) (rest : List Resource)
    (hlive : (cluster.live info.identity).isNotFound = false)
    (hmatch : lookupOriginal original info = none) :
    (visitTargets cluster original (info :: rest)).1
      = Except.error (Err.originalNotFound info.identity.name) := by
  simp [visitTargets, hlive, hmatch]

/-- C1 witness: the amended failure at a concrete live-existing, unmatched
resource. -/
theorem c1_witness :
    (visitTargets
      { reachable := true, serverVersion := Except.ok "v1.18.8",
        apiVersionsResult := VersionSetResult.ok ["v1"],
        live := fun _ => FetchResult.found (Json.obj [("spec", Json.num 1)]) }
      [{ identity := { group := "", version := "v1", kind := "Service",
                       nspace := "default", name := "svc" },
         body := Json.obj [], isUnstructured := false, isCRD := false,
         patchMeta := some { structName := "Service" } }]
      [{ identity := { group := "apps", version := "v1", kind := "Deployment",
                       nspace := "default", name := "api" },
         body := Json.obj [], isUnstructured := false, isCRD := false,
         patchMeta := some { structName := "Deployment" } }]).1
      = Except.error (Err.originalNotFound "api") :=
  c1_unmatched_resource_fails _ _ _ _ rfl rfl

/-- On a successful visit, the patchset has exactly one patch document per
target resource whose live lookup finds an object. -/
theorem visitTargets_ok_length (cluster : Cluster) (original : List Resource) :
    ∀ (ts : List Resource) (patches : List Json),
      (visitTargets cluster original ts).1 = Except.ok patches →
      patches.length = foundCount cluster ts := by
  intro ts
  induction ts with
  | nil =>
    intro patches h
    simp [visitTargets] at h
    simp [← h, foundCount]
  | cons info rest ih =>
    intro patches h
    simp only [visitTargets] at h
    split at h
    · rename_i hnf
      simp only at h
      have hlen := ih patches h
      cases hl : cluster.live info.identity with
      | notFound => simpa [foundCount, hasLive, hl] using hlen
      | found obj => rw [hl] at hnf; cases hnf
      | failed msg => rw [hl] at hnf; cases hnf
    · rename_i hnf
      split at h
      · simp at h
      · rename_i orig heq
        split at h
        · simp at h
        · rename_i patch kind cops hcp
          split at h
          · simp at h
          · rename_i ps hr
            simp only at h
            injection h with h
            have hlen := ih ps hr
            cases hl : cluster.live info.identity with
            | notFound => rw [hl] at hnf; exact absurd rfl hnf
            | failed msg =>
              rw [createPatch] at hcp
              rw [hl] at hcp
              cases hcp
            | found obj =>
              simp [← h, foundCount, hasLive, hl] at hlen ⊢
              exact hlen

/-- C2: a target resource whose live probe returns not-found is skipped —
the visit result (and thus the patchset) is exactly that of the remaining
resources, with no record emitted and no error surfaced — and whenever the
visit succeeds, the patchset length equals the number of target resources
whose live lookup finds an object. -/
theorem c2_notfound_skipped (cluster : Cluster) (original : List Resource)
    (info : Resource) (rest ts : List Resource) (patches : List Json) :
    (cluster.live info.identity = FetchResult.notFound →
      (visitTargets cluster original (info :: rest)).1
        = (visitTargets cluster original rest).1)
    ∧ ((visitTargets cluster original ts).1 = Except.ok patches →
        patches.length = foundCount cluster ts) := by
  constructor
  · intro hl
    simp [visitTargets, hl, FetchResult.isNotFound]
  · exact visitTargets_ok_length cluster original ts patches

/-- C2 witness: a two-resource target list in which the first live lookup is
not-found (skipped) and the second finds a drifted object. -/
theorem c2_witness :
    ((visitTargets
        { reachable := true, serverVersion := Except.ok "v1.18.8",
          apiVersionsResult := VersionSetResult.ok ["v1"],
          live := fun id => if id.name = "gone" then FetchResult.notFound
                            else FetchResult.found (Json.obj []) }
        [{ identity := { group := "example.com", version := "v1", kind := "Widget",
                         nspace := "default", name := "w" },
           body := Json.obj [], isUnstructured := true, isCRD := false,
           patchMeta := none }]
        [{ identity := { group := "apps", version := "v1", kind := "Deployment",
                         nspace := "default", name := "gone" },
           body := Json.obj [], isUnstructured := false, isCRD := false,
           patchMeta := some { structName := "Deployment" } },
         { identity := { group := "example.com", version := "v1", kind := "Widget",
                         nspace := "default", name := "w" },
           body := Json.obj [], isUnstructured := true, isCRD := false,
           patchMeta := none }]).1
      = (visitTargets
          { reachable := true, serverVersion := Except.ok "v1.18.8",
            apiVersionsResult := VersionSetResult.ok ["v1"],
            live := fun id => if id.name = "gone" then FetchResult.notFound
                              else FetchResult.found (Json.obj []) }
          [{ identity := { group := "example.com", version := "v1", kind := "Widget",
                           nspace := "default", name := "w" },
             body := Json.obj [], isUnstructured := true, isCRD := false,
             patchMeta := none }]
          [{ identity := { group := "example.com", version := "v1", kind := "Widget",
                           nspace := "default", name := "w" },
             body := Json.obj [], isUnstructured := true, isCRD := false,
             patchMeta := none }]).1)
    ∧ ([createMergePatch (Json.obj []) (Json.obj [])].length
        = foundCount
            { reachable := true, serverVersion := Except.ok "v1.18.8",
              apiVersionsResult := VersionSetResult.ok ["v1"],
              live := fun id => if id.name = "gone" then FetchResult.notFound
                                else FetchResult.found (Json.obj []) }
            [{ identity := { group := "apps", version := "v1", kind := "Deployment",
                             nspace := "default", name := "gone" },
               body := Json.obj [], isUnstructured := false, isCRD := false,
               patchMeta := some { structName := "Deployment" } },
             { identity := { group := "example.com", version := "v1", kind := "Widget",
                             nspace := "default", name := "w" },
               body := Json.obj [], isUnstructured := true, isCRD := false,
               patchMeta := none }]) :=
  ⟨(c2_notfound_skipped _ _ _ _ [] []).1 rfl,
   (c2_notfound_skipped _
      [{ identity := { group := "example.com", version := "v1", kind := "Widget",
                       nspace := "default", name := "w" },
         body := Json.obj [], isUnstructured := true, isCRD := false,
         patchMeta := none }]
      { identity := { group := "apps", version := "v1", kind := "Deployment",
                      nspace := "default", name := "gone" },
        body := Json.obj [], isUnstructured := false, isCRD := false,
        patchMeta := some { structName := "Deployment" } }
      [] _ _).2 (by rfl)⟩

/-- C8 counterexample: a single target resource that exists live is fetched
from the runtime twice during its patch computation — once by the visitor's
existence probe and once again inside `createPatch` — so the trace holds two
live lookups for its identity, not one. -/
theorem c8_counterexample :
    ((visitTargets
        { reachable := true, serverVersion := Except.ok "v1.18.8",
          apiVersionsResult := VersionSetResult.ok ["v1"],
          live := fun _ => FetchResult.found (Json.obj []) }
        [{ identity := { group := "example.com", version := "v1", kind := "Widget",
                         nspace := "default", name := "w" },
           body := Json.obj [], isUnstructured := true, isCRD := false,
           patchMeta := none }]
        [{ identity := { group := "example.com", version := "v1", kind := "Widget",
                         nspace := "default", name := "w" },
           body := Json.obj [], isUnstructured := true, isCRD := false,
           patchMeta := none }]).2).count
      (KubeOp.getLive { group := "example.com", version := "v1", kind := "Widget",
                        nspace := "default", name := "w" }) = 2 := rfl

/-- C8 (amended): during one resource's processing the live object is
fetched once when the live probe returns not-found (the resource is then
skipped), and exactly twice when the probe finds the resource and a patch is
computed — once for the existence probe, once inside the patch computation —
and the remaining resources' trace is appended unchanged afterwards, so no
live result is ever reused across resources. -/
theorem c8_live_fetch_trace (cluster : Cluster) (original : List Resource)
    (info : Resource) (rest : List Resource) :
    (cluster.live info.identity = FetchResult.notFound →
      (visitTargets cluster original (info :: rest)).2
        = KubeOp.getLive info.identity :: (visitTargets cluster original rest).2)
    ∧ (∀ obj orig patch kind,
        cluster.live info.identity = FetchResult.found obj →
        lookupOriginal original info = some orig →
        (createPatch cluster orig.body info).1 = Except.ok (patch, kind) →
        (visitTargets cluster original (info :: rest)).2
          = KubeOp.getLive info.identity :: KubeOp.getLive info.identity
              :: (visitTargets cluster original rest).2) := by
  constructor
  · intro hl
    simp [visitTargets, hl, FetchResult.isNotFound]
  · intro obj orig patch kind hl hm hok
    have hnf : (cluster.live info.identity).isNotFound = false := by
      rw [hl]; rfl
    have hcp : createPatch cluster orig.body info
        = (Except.ok (patch, kind), [KubeOp.getLive info.identity]) := by
      unfold createPatch at hok ⊢
      rw [hl] at hok ⊢
      simp only at hok
      simp [hok]
    simp only [visitTargets, hnf, Bool.false_eq_true, if_false]
    rw [hm]
    simp only [hcp]
    cases hr : (visitTargets cluster original rest).1 <;> simp [hr]

/-- C8 witness: the two fetch-count shapes at concrete resources — one
absent live, one present live. -/
theorem c8_witness :
    ((visitTargets
        { reachable := true, serverVersion := Except.ok "v1.18.8",
          apiVersionsResult := VersionSetResult.ok ["v1"],
          live := fun id => if id.name = "gone" then FetchResult.notFound
                            else FetchResult.found (Json.obj []) }
        [{ identity := { group := "example.com", version := "v1", kind := "Widget",
                         nspace := "default", name := "w" },
           body := Json.obj [], isUnstructured := true, isCRD := false,
           patchMeta := none }]
        [{ identity := { group := "apps", version := "v1", kind := "Deployment",
                         nspace := "default", name := "gone" },
           body := Json.obj [], isUnstructured := false, isCRD := false,
           patchMeta := some { structName := "Deployment" } }]).2
      = [KubeOp.getLive { group := "apps", version := "v1", kind := "Deployment",
                          nspace := "default", name := "gone" }])
    ∧ ((visitTargets
        { reachable := true, serverVersion := Except.ok "v1.18.8",
          apiVersionsResult := VersionSetResult.ok ["v1"],
          live := fun id => if id.name = "gone" then FetchResult.notFound
                            else FetchResult.found (Json.obj []) }
        [{ identity := { group := "example.com", version := "v1", kind := "Widget",
                         nspace := "default", name := "w" },
           body := Json.obj [], isUnstructured := true, isCRD := false,
           patchMeta := none }]
        [{ identity := { group := "example.com", version := "v1", kind := "Widget",
                         nspace := "default", name := "w" },
           body := Json.obj [], isUnstructured := true, isCRD := false,
           patchMeta := none }]).2
      = [KubeOp.getLive { group := "example.com", version := "v1", kind := "Widget",
                          nspace := "default", name := "w" },
         KubeOp.getLive { group := "example.com", version := "v1", kind := "Widget",
                          nspace := "default", name := "w" }]) := by
  constructor
  · have h := (c8_live_fetch_trace
      { reachable := true, serverVersion := Except.ok "v1.18.8",
        apiVersionsResult := VersionSetResult.ok ["v1"],
        live := fun id => if id.name = "gone" then FetchResult.notFound
                          else FetchResult.found (Json.obj []) }
      [{ identity := { group := "example.com", version := "v1", kind := "Widget",
                       nspace := "default", name := "w" },
         body := Json.obj [], isUnstructured := true, isCRD := false,
         patchMeta := none }]
      { identity := { group := "apps", version := "v1", kind := "Deployment",
                      nspace := "default", name := "gone" },
        body := Json.obj [], isUnstructured := false, isCRD := false,
        patchMeta := some { structName := "Deployment" } }
      []).1 rfl
    simpa using h
  · have h := (c8_live_fetch_trace
      { reachable := true, serverVersion := Except.ok "v1.18.8",
        apiVersionsResult := VersionSetResult.ok ["v1"],
        live := fun id => if id.name = "gone" then FetchResult.notFound
                          else FetchResult.found (Json.obj []) }
      [{ identity := { group := "example.com", version := "v1", kind := "Widget",
                       nspace := "default", name := "w" },
         body := Json.obj [], isUnstructured := true, isCRD := false,
         patchMeta := none }]
      { identity := { group := "example.com", version := "v1", kind := "Widget",
                      nspace := "default", name := "w" },
        body := Json.obj [], isUnstructured := true, isCRD := false,
        patchMeta := none }
      []).2 (Json.obj [])
      { identity := { group := "example.com", version := "v1", kind := "Widget",
                      nspace := "default", name := "w" },
        body := Json.obj [], isUnstructured := true, isCRD := false,
        patchMeta := none }
      (createMergePatch (Json.obj []) (Json.obj [])) PatchType.mergePatch
      rfl rfl rfl
    simpa using h

/-- C6: given the most recent release record for the name, a successful
upgrade preparation resolves its baseline to that record when it is
deployed; otherwise to the record the deployed-release lookup returned; when
that lookup failed (with the no-deployed-releases error) the baseline that a
successful preparation used is the most recent record itself — possible only
for failed or superseded status — and when the most recent record has any
other status, the deployed-lookup error propagates and the preparation
fails. -/
theorem c6_baseline_resolution (env : Env) (name : String) (ch : Chart)
    (lastRelease : Release)
    (hlast : env.storage.lastResult = Except.ok lastRelease) :
    (∀ rel opts om tm,
      (prepareUpgrade env name (some ch)).1 = Except.ok (rel, opts, om, tm) →
        ((lastRelease.status = Status.deployed → rel = lastRelease)
        ∧ (∀ d, lastRelease.status ≠ Status.deployed →
            env.storage.deployedResult = Except.ok d → rel = d)
        ∧ (∀ e, lastRelease.status ≠ Status.deployed →
            env.storage.deployedResult = Except.error e →
            rel = lastRelease
            ∧ (lastRelease.status = Status.failed ∨ lastRelease.status = Status.superseded))))
    ∧ (∀ e, lastRelease.status ≠ Status.deployed →
        env.storage.deployedResult = Except.error e →
        e.isNoDeployedReleases = true →
        lastRelease.status ≠ Status.failed → lastRelease.status ≠ Status.superseded →
        (prepareUpgrade env name (some ch)).1 = Except.error (Err.driver e)) := by
  constructor
  · intro rel opts om tm hok
    unfold prepareUpgrade at hok
    rw [hlast] at hok
    simp only at hok
    cases hb : resolveBaseline env.storage lastRelease with
    | error e => rw [hb] at hok; cases hok
    | ok currentRelease =>
      rw [hb] at hok
      have hrel : rel = currentRelease := by
        cases hdeps : env.depsResult with
        | error msg => rw [hdeps] at hok; cases hok
        | ok u =>
          rw [hdeps] at hok
          cases hcap : getCapabilities env.cluster none with
          | mk capsRes capsOps =>
            rw [hcap] at hok
            cases capsRes with
            | error e => simp at hok
            | ok caps =>
              simp only at hok
              cases hrender : env.render
                  { name := name, nspace := currentRelease.nspace,
                    revision := lastRelease.version + 1, isUpgrade := true } with
              | error msg => rw [hrender] at hok; cases hok
              | ok doc =>
                rw [hrender] at hok
                simp only at hok
                injection hok with hok
                exact (Prod.mk.injEq .. ▸ hok).1.symm
      unfold resolveBaseline at hb
      refine ⟨?_, ?_, ?_⟩
      · intro hst
        rw [if_pos hst] at hb
        injection hb with hb
        rw [hrel, hb]
      · intro d hst hdep
        rw [if_neg hst, hdep] at hb
        simp only at hb
        injection hb with hb
        rw [hrel, hb]
      · intro e hst hdep
        rw [if_neg hst, hdep] at hb
        simp only at hb
        by_cases hcond : e.isNoDeployedReleases = true ∧
            (lastRelease.status = Status.failed ∨ lastRelease.status = Status.superseded)
        · rw [if_pos hcond] at hb
          injection hb with hb
          exact ⟨hrel.trans hb.symm, hcond.2⟩
        · rw [if_neg hcond] at hb
          cases hb
  · intro e hst hdep hnd hf hs
    unfold prepareUpgrade
    rw [hlast]
    simp only
    unfold resolveBaseline
    rw [if_neg hst, hdep]
    simp only
    have hcond : ¬ (e.isNoDeployedReleases = true ∧
        (lastRelease.status = Status.failed ∨ lastRelease.status = Status.superseded)) := by
      intro hc
      rcases hc.2 with h | h
      · exact hf h
      · exact hs h
    rw [if_neg hcond]

/-- C6 witness: with no deployed record and a most recent record in a
pending state (neither failed nor superseded), the deployed-lookup error
propagates out of the preparation. -/
theorem c6_witness :
    (prepareUpgrade
      { cluster := { reachable := true, serverVersion := Except.ok "v1.18.8",
                     apiVersionsResult := VersionSetResult.ok ["v1"],
                     live := fun _ => FetchResult.notFound },
        storage := { lastResult := Except.ok { name := "foo", nspace := "ns", version := 4,
                                               status := Status.otherStatus "pending-install",
                                               manifest := "m" },
                     deployedResult := Except.error (DriverError.noDeployedReleases "foo") },
        mergeValuesResult := Except.ok (), loadChartResult := Except.ok { chartName := "ch" },
        depsResult := Except.ok (), render := fun _ => Except.ok "rendered",
        build := fun _ => Except.ok [] }
      "foo" (some { chartName := "ch" })).1
    = Except.error (Err.driver (DriverError.noDeployedReleases "foo")) :=
  (c6_baseline_resolution _ "foo" { chartName := "ch" }
    { name := "foo", nspace := "ns", version := 4,
      status := Status.otherStatus "pending-install", manifest := "m" } rfl).2
    (DriverError.noDeployedReleases "foo")
    (by decide) rfl rfl (by decide) (by decide)

/-- C7 counterexample: when the baseline resolves to an older deployed
record (version 3) distinct from the most recent record (version 5,
superseded), the render context carries revision 6 — the most recent
record's version plus one — not the baseline's version plus one (4).  Its
namespace does come from the baseline. -/
theorem c7_counterexample :
    (prepareUpgrade
      { cluster := { reachable := true, serverVersion := Except.ok "v1.18.8",
                     apiVersionsResult := VersionSetResult.ok ["v1"],
                     live := fun _ => FetchResult.notFound },
        storage := { lastResult := Except.ok { name := "foo", nspace := "nsA", version := 5,
                                               status := Status.superseded, manifest := "old" },
                     deployedResult := Except.ok { name := "foo", nspace := "nsB", version := 3,
                                                   status := Status.deployed, manifest := "dep" } },
        mergeValuesResult := Except.ok (), loadChartResult := Except.ok { chartName := "ch" },
        depsResult := Except.ok (), render := fun _ => Except.ok "rendered",
        build := fun _ => Except.ok [] }
      "foo" (some { chartName := "ch" })).1
    = Except.ok ({ name := "foo", nspace := "nsB", version := 3,
                   status := Status.deployed, manifest := "dep" },
                 { name := "foo", nspace := "nsB", revision := 6, isUpgrade := true },
                 "dep", "rendered")
    ∧ ({ name := "foo", nspace := "nsB", revision := 6, isUpgrade := true
         } : ReleaseOptions).revision
      ≠ ({ name := "foo", nspace := "nsB", version := 3,
           status := Status.deployed, manifest := "dep" } : Release).version + 1 :=
  ⟨rfl, by decide⟩

/-- C7 (amended): for every successful preparation, the render context has
the release name, the namespace of the baseline release, revision equal to
the most recent release's version plus one (which exceeds the baseline's
version plus one whenever the baseline is an older deployed record), and
upgrade mode set. -/
theorem c7_render_context (env : Env) (name : String) (ch : Chart)
    (lastRelease rel : Release) (opts : ReleaseOptions) (om tm : String)
    (hlast : env.storage.lastResult = Except.ok lastRelease)
    (hok : (prepareUpgrade env name (some ch)).1 = Except.ok (rel, opts, om, tm)) :
    opts.name = name ∧ opts.nspace = rel.nspace
    ∧ opts.revision = lastRelease.version + 1 ∧ opts.isUpgrade = true := by
  unfold prepareUpgrade at hok
  rw [hlast] at hok
  simp only at hok
  cases hb : resolveBaseline env.storage lastRelease with
  | error e => rw [hb] at hok; cases hok
  | ok currentRelease =>
    rw [hb] at hok
    cases hdeps : env.depsResult with
    | error msg => rw [hdeps] at hok; cases hok
    | ok u =>
      rw [hdeps] at hok
      cases hcap : getCapabilities env.cluster none with
      | mk capsRes capsOps =>
        rw [hcap] at hok
        cases capsRes with
        | error e => simp at hok
        | ok caps =>
          simp only at hok
          cases hrender : env.render
              { name := name, nspace := currentRelease.nspace,
                revision := lastRelease.version + 1, isUpgrade := true } with
          | error msg => rw [hrender] at hok; cases hok
          | ok doc =>
            rw [hrender] at hok
            simp only at hok
            injection hok with hok
            obtain ⟨hrel, hrest⟩ := Prod.mk.injEq .. ▸ hok
            obtain ⟨hopts, _⟩ := Prod.mk.injEq .. ▸ hrest
            rw [← hopts, ← hrel]
            exact ⟨rfl, rfl, rfl, rfl⟩

/-- C7 witness: the amended render-context facts at the counterexample's
input, where the baseline (version 3, namespace nsB) differs from the most
recent record (version 5). -/
theorem c7_witness :
    ({ name := "foo", nspace := "nsB", revision := 6, isUpgrade := true
       } : ReleaseOptions).name = "foo"
    ∧ ({ name := "foo", nspace := "nsB", revision := 6, isUpgrade := true
         } : ReleaseOptions).nspace
      = ({ name := "foo", nspace := "nsB", version := 3,
           status := Status.deployed, manifest := "dep" } : Release).nspace
    ∧ ({ name := "foo", nspace := "nsB", revision := 6, isUpgrade := true
         } : ReleaseOptions).revision
      = ({ name := "foo", nspace := "nsA", version := 5,
           status := Status.superseded, manifest := "old" } : Release).version + 1
    ∧ ({ name := "foo", nspace := "nsB", revision := 6, isUpgrade := true
         } : ReleaseOptions).isUpgrade = true :=
  c7_render_context
    { cluster := { reachable := true, serverVersion := Except.ok "v1.18.8",
                   apiVersionsResult := VersionSetResult.ok ["v1"],
                   live := fun _ => FetchResult.notFound },
      storage := { lastResult := Except.ok { name := "foo", nspace := "nsA", version := 5,
                                             status := Status.superseded, manifest := "old" },
                   deployedResult := Except.ok { name := "foo", nspace := "nsB", version := 3,
                                                 status := Status.deployed, manifest := "dep" } },
      mergeValuesResult := Except.ok (), loadChartResult := Except.ok { chartName := "ch" },
      depsResult := Except.ok (), render := fun _ => Except.ok "rendered",
      build := fun _ => Except.ok [] }
    "foo" { chartName := "ch" }
    { name := "foo", nspace := "nsA", version := 5,
      status := Status.superseded, manifest := "old" }
    { name := "foo", nspace := "nsB", version := 3,
      status := Status.deployed, manifest := "dep" }
    { name := "foo", nspace := "nsB", revision := 6, isUpgrade := true }
    "dep" "rendered" rfl rfl

/-- Capability discovery issues only read interactions. -/
theorem getCapabilities_ops_read (cluster : Cluster) (cached : Option Caps) :
    ((getCapabilities cluster cached).2).all KubeOp.isRead = true := by
  unfold getCapabilities
  cases cached with
  | some caps => rfl
  | none =>
    cases h1 : cluster.serverVersion with
    | error msg => simp [h1, KubeOp.isRead]
    | ok kv =>
      cases h2 : cluster.apiVersionsResult with
      | ok vs => simp [h1, h2, KubeOp.isRead]
      | groupDiscoveryFailed vs => simp [h1, h2, KubeOp.isRead]
      | failed msg => simp [h1, h2, KubeOp.isRead]

/-- A single patch computation issues only read interactions. -/
theorem createPatch_ops_read (cluster : Cluster) (original : Json) (target : Resource) :
    ((createPatch cluster original target).2).all KubeOp.isRead = true := by
  unfold createPatch
  cases h : cluster.live target.identity <;> simp [h, KubeOp.isRead]

/-- The whole target visit issues only read interactions. -/
theorem visitTargets_ops_read (cluster : Cluster) (original : List Resource) :
    ∀ ts : List Resource, ((visitTargets cluster original ts).2).all KubeOp.isRead = true := by
  intro ts
  induction ts with
  | nil => rfl
  | cons info rest ih =>
    simp only [visitTargets]
    split
    · simp [KubeOp.isRead, ih]
    · split
      · simp [KubeOp.isRead]
      · rename_i orig heq
        split
        · rename_i e cops hcp
          have h := createPatch_ops_read cluster orig.body info
          rw [hcp] at h
          simp only [List.all_cons] at h ⊢
          simpa [KubeOp.isRead] using h
        · rename_i patch kind cops hcp
          have h := createPatch_ops_read cluster orig.body info
          rw [hcp] at h
          simp only [List.all_cons] at h
          split <;> simp [KubeOp.isRead, ih] <;> simpa [KubeOp.isRead] using h
    
/-- Upgrade preparation issues only read interactions. -/
theorem prepareUpgrade_ops_read (env : Env) (name : String) (chart : Option Chart) :
    ((prepareUpgrade env name chart).2).all KubeOp.isRead = true := by
  unfold prepareUpgrade
  split
  · rfl
  · split
    · rfl
    · rfl
    · split
      · rfl
      · split
        · rfl
        · split
          · rename_i e ops hcap
            have h := getCapabilities_ops_read env.cluster none
            rw [hcap] at h
            simpa using h
          · rename_i caps ops hcap
            have h := getCapabilities_ops_read env.cluster none
            rw [hcap] at h
            simp only
            split
            · simpa using h
            · simpa using h

/-- C9: every runtime interaction issued by the pipeline — reachability
check, discovery, live retrieval — is a read; the operation language also
contains the client's write operations (create, update, delete, patch) and
none of them ever appears in any execution's trace, so the observed cluster
state is never mutated. -/
theorem c9_runtime_read_only (env : Env) (validName : String → Bool)
    (name : String) (chart : Option Chart) :
    ((createPatchset env name chart).2).all KubeOp.isRead = true
    ∧ ((runMain env validName name).2).all KubeOp.isRead = true := by
  have hcp : ∀ ch, ((createPatchset env name ch).2).all KubeOp.isRead = true := by
    intro ch
    unfold createPatchset
    split
    · split
      · rename_i e ops hprep
        have h := prepareUpgrade_ops_read env name ch
        rw [hprep] at h
        simpa [KubeOp.isRead] using h
      · rename_i baseline opts om tm ops hprep
        have h := prepareUpgrade_ops_read env name ch
        rw [hprep] at h
        simp only at h
        split
        · simpa [KubeOp.isRead] using h
        · rename_i original hbo
          split
          · simpa [KubeOp.isRead] using h
          · rename_i target hbt
            have hv := visitTargets_ops_read env.cluster original target
            simpa [KubeOp.isRead, hv] using h
    · rfl
  refine ⟨hcp chart, ?_⟩
  unfold runMain
  split
  · rfl
  · split
    · rfl
    · split
      · rfl
      · exact hcp _

/-- C10: release-name validation accepts a name exactly when it is
non-empty, at most 53 characters long, and matches the valid-name pattern;
and any rejected name stops the command before anything else runs — the
result is the validation error and the runtime trace is empty (no lookup,
rendering, or cluster access has happened). -/
theorem c10_release_name_validation (validName : String → Bool) (name : String)
    (env : Env) :
    (validateReleaseName validName name = Except.ok () ↔
      (name ≠ "" ∧ name.length ≤ 53 ∧ validName name = true))
    ∧ (∀ msg, validateReleaseName validName name = Except.error msg →
        (runMain env validName name).1 = Except.error (Err.invalidName msg)
        ∧ (runMain env validName name).2 = []) := by
  constructor
  · unfold validateReleaseName
    by_cases h1 : name = ""
    · simp [h1]
    · rw [if_neg h1]
      by_cases hcond : (decide (name.length > 53) || !validName name) = true
      · rw [if_pos hcond]
        simp only [Bool.or_eq_true, decide_eq_true_eq, Bool.not_eq_true'] at hcond
        constructor
        · intro h; cases h
        · rintro ⟨_, hlen, hv⟩
          rcases hcond with h | h
          · omega
          · rw [hv] at h; cases h
      · rw [if_neg hcond]
        simp only [Bool.or_eq_true, decide_eq_true_eq, Bool.not_eq_true',
          not_or] at hcond
        obtain ⟨hlen, hv⟩ := hcond
        constructor
        · intro _
          refine ⟨h1, by omega, ?_⟩
          cases hvv : validName name
          · exact absurd hvv hv
          · rfl
        · intro _; rfl
  · intro msg hrej
    unfold runMain
    rw [hrej]
    exact ⟨rfl, rfl⟩

/-- C10 witness: a concrete 54-character name is rejected with an empty
runtime trace, and a concrete short name passing the pattern is accepted. -/
theorem c10_witness :
    ((runMain
        { cluster := { reachable := true, serverVersion := Except.ok "v1.18.8",
                       apiVersionsResult := VersionSetResult.ok ["v1"],
                       live := fun _ => FetchResult.notFound },
          storage := { lastResult := Except.error DriverError.releaseNotFound,
                       deployedResult := Except.error (DriverError.noDeployedReleases "x") },
          mergeValuesResult := Except.ok (), loadChartResult := Except.ok { chartName := "ch" },
          depsResult := Except.ok (), render := fun _ => Except.ok "",
          build := fun _ => Except.ok [] }
        (fun _ => true)
        "aaaaaaaaaaaaaaaaaaaaaaaaaaaaaaaaaaaaaaaaaaaaaaaaaaaaaa").1
      = Except.error (Err.invalidName
          "invalid release name: aaaaaaaaaaaaaaaaaaaaaaaaaaaaaaaaaaaaaaaaaaaaaaaaaaaaaa")
      ∧ (runMain
          { cluster := { reachable := true, serverVersion := Except.ok "v1.18.8",
                         apiVersionsResult := VersionSetResult.ok ["v1"],
                         live := fun _ => FetchResult.notFound },
            storage := { lastResult := Except.error DriverError.releaseNotFound,
                         deployedResult := Except.error (DriverError.noDeployedReleases "x") },
            mergeValuesResult := Except.ok (), loadChartResult := Except.ok { chartName := "ch" },
            depsResult := Except.ok (), render := fun _ => Except.ok "",
            build := fun _ => Except.ok [] }
          (fun _ => true)
          "aaaaaaaaaaaaaaaaaaaaaaaaaaaaaaaaaaaaaaaaaaaaaaaaaaaaaa").2 = [])
    ∧ (validateReleaseName (fun _ => true) "frontend" = Except.ok ()) :=
  ⟨(c10_release_name_validation (fun _ => true)
      "aaaaaaaaaaaaaaaaaaaaaaaaaaaaaaaaaaaaaaaaaaaaaaaaaaaaaa" _).2
      "invalid release name: aaaaaaaaaaaaaaaaaaaaaaaaaaaaaaaaaaaaaaaaaaaaaaaaaaaaaa"
      (by rfl),
   (c10_release_name_validation (fun _ => true) "frontend"
      { cluster := { reachable := true, serverVersion := Except.ok "v1.18.8",
                     apiVersionsResult := VersionSetResult.ok ["v1"],
                     live := fun _ => FetchResult.notFound },
        storage := { lastResult := Except.error DriverError.releaseNotFound,
                     deployedResult := Except.error (DriverError.noDeployedReleases "x") },
        mergeValuesResult := Except.ok (), loadChartResult := Except.ok { chartName := "ch" },
        depsResult := Except.ok (), render := fun _ => Except.ok "",
        build := fun _ => Except.ok [] }).1.mpr
      ⟨by decide, by decide, rfl⟩⟩
